import Mathlib

/-
Verification of the processing-job queue of the ffmpeg-frontend repository.

The embedding covers:
  * FFmpegService.extractProgressDetails (src/main/services/ffmpegService.ts),
    including a character-level model of the two regular expressions it uses;
  * the QueueService class (queueService): its job map, operations
    (addJob, removeJob, clearQueue, start, stop, retryJob, cancelJob),
    the dispatch loop (processNextJob / executeJob) and the async
    continuations of the JS event loop, modelled as explicit pending tasks
    (the close handler of a spawned process, the setTimeout dispatch timer).

JS numbers are modelled as exact rationals; epoch-millisecond timestamps as
naturals supplied by the environment at each step.
-/

namespace FfmpegFrontend

/-! ## Progress extractor (FFmpegService.extractProgressDetails) -/

/-- Digit test: the regex character class of a single decimal digit. -/
def isDigitChar (c : Char) : Bool := decide ('0' ≤ c) && decide (c ≤ '9')

/-- Numeric value of a digit character. -/
def digitVal (c : Char) : Nat := c.toNat - '0'.toNat

/-- The capture groups of the timestamp regex applied to FFmpeg output,
matching a token of shape HH:MM:SS.ss after a literal time= prefix:
two digit characters each for hours, minutes, whole seconds and the
two fractional-second digits. -/
structure TimeTokenGroups where
  h1 : Char
  h2 : Char
  m1 : Char
  m2 : Char
  s1 : Char
  s2 : Char
  f1 : Char
  f2 : Char
deriving DecidableEq, Repr

/-- Match the timestamp regex at the start of the character list. The
pattern is fixed-shape (literal prefix, fixed-width digit groups), so regex
matching at one position is this single test. -/
def timeMatchAt : List Char → Option TimeTokenGroups
  | 't' :: 'i' :: 'm' :: 'e' :: '=' :: h1 :: h2 :: ':' :: m1 :: m2 :: ':' :: s1 :: s2 :: '.' :: f1 :: f2 :: _ =>
    if isDigitChar h1 && isDigitChar h2 && isDigitChar m1 && isDigitChar m2 &&
       isDigitChar s1 && isDigitChar s2 && isDigitChar f1 && isDigitChar f2 then
      some ⟨h1, h2, m1, m2, s1, s2, f1, f2⟩
    else none
  | _ => none

/-- String.match with a non-global regex returns the earliest match: try the
pattern at every suffix, leftmost first. -/
def scanFirst {α : Type} (f : List Char → Option α) : List Char → Option α
  | [] => none
  | c :: cs =>
    match f (c :: cs) with
    | some r => some r
    | none => scanFirst f cs

/-- Modelled from the spec: the spec declares the LAST timestamp match in a
chunk authoritative. This definition follows the spec wording (latest
matching position wins) and exists only to be compared against the
extractor's actual first-match behaviour. -/
def scanLast {α : Type} (f : List Char → Option α) : List Char → Option α
  | [] => none
  | c :: cs =>
    match scanLast f cs with
    | some r => some r
    | none => f (c :: cs)

/-- Character class of the speed regex body: digits and dots. -/
def isSpeedChar (c : Char) : Bool := isDigitChar c || c == '.'

/-- Match the speed regex at the start of the list: after a literal speed=
prefix, a nonempty greedy run of digits and dots must be followed directly
by the letter x; the captured group includes the x. -/
def speedMatchAt : List Char → Option String
  | 's' :: 'p' :: 'e' :: 'e' :: 'd' :: '=' :: rest =>
    match rest.takeWhile isSpeedChar, rest.dropWhile isSpeedChar with
    | [], _ => none
    | run, 'x' :: _ => some (String.mk (run ++ ['x']))
    | _, _ => none
  | _ => none

/-- parseInt applied to a two-digit capture group. -/
def parseInt2 (a b : Char) : Nat := 10 * digitVal a + digitVal b

/-- parseFloat applied to the DD.DD seconds group, as an exact rational. -/
def parseSeconds (s1 s2 f1 f2 : Char) : ℚ :=
  (parseInt2 s1 s2 : ℚ) + (parseInt2 f1 f2 : ℚ) / 100

/-- Total elapsed media seconds of a matched timestamp token:
hours * 3600 + minutes * 60 + seconds (fractional part kept exactly). -/
def elapsedSeconds (g : TimeTokenGroups) : ℚ :=
  (parseInt2 g.h1 g.h2 : ℚ) * 3600 + (parseInt2 g.m1 g.m2 : ℚ) * 60 +
    parseSeconds g.s1 g.s2 g.f1 g.f2

/-- Math.max on two rationals (kernel-computable). -/
def jsMax (a b : ℚ) : ℚ := if a ≤ b then b else a

/-- Math.min on two rationals (kernel-computable). -/
def jsMin (a b : ℚ) : ℚ := if a ≤ b then a else b

/-- Result record of FFmpegService.extractProgressDetails. -/
structure ProgressDetails where
  percent : Option ℚ
  timeSeconds : Option ℚ
  speed : Option String
deriving DecidableEq, Repr

/-- FFmpegService.extractProgressDetails: the first timestamp match gives
timeSeconds; percent is the clamped ratio when the caller supplied a truthy
positive total duration, otherwise absent; speed is the first speed match
carried through verbatim. -/
def extractProgressDetails (output : List Char) (totalDurationSeconds : Option ℚ) :
    ProgressDetails :=
  let timeSeconds := (scanFirst timeMatchAt output).map elapsedSeconds
  let percent : Option ℚ :=
    match timeSeconds, totalDurationSeconds with
    | some t, some d => if 0 < d then some (jsMax 0 (jsMin 100 (t / d * 100))) else none
    | _, _ => none
  { percent := percent, timeSeconds := timeSeconds,
    speed := scanFirst speedMatchAt output }

/-! ## Queue data model (types/services.ts and QueueService fields) -/

/-- JobStatus of types/services.ts. -/
inductive JobStatus
  | queued
  | running
  | completed
  | failed
  | canceled
deriving DecidableEq, Repr

/-- ProcessingJob of types/services.ts. Optional JS fields are Options;
numbers are exact rationals, epoch-millisecond timestamps naturals. -/
structure ProcessingJob where
  id : String
  inputFile : String
  outputFile : String
  args : List String
  status : JobStatus
  progress : ℚ
  speed : Option String := none
  etaSeconds : Option ℚ := none
  startTime : Option Nat := none
  endTime : Option Nat := none
  error : Option String := none
  durationSeconds : Option ℚ := none
deriving DecidableEq, Repr

/-- The observable effects a queue step produces, in emission order: the
three EventEmitter events of QueueService (stateChange, progress,
jobComplete) plus sigTermSent, which records the kill signal sent to the
child process (an external effect, not an emitted event). -/
inductive QueueEvent
  | stateChange
  | progressEvent (jobId : String) (progress : ℚ) (speed : Option String)
      (etaSeconds : Option ℚ)
  | jobComplete (jobId : String) (success : Bool) (error : Option String)
  | sigTermSent
deriving DecidableEq, Repr

/-- The async continuations of the JS event loop that QueueService leaves
behind: procExit i is the close handler of the process spawned for job i
(the rest of executeJob after its await), nextTimer the pending
setTimeout dispatch of processNextJob. -/
inductive PendingTask
  | procExit (jobId : String)
  | nextTimer
deriving DecidableEq, Repr

/-- The private fields of the QueueService class. The jobs Map is a list in
insertion order; currentProcess records whether a process handle is stored
(the class declares the field but never assigns it, so it stays null). -/
structure QueueServiceState where
  jobs : List ProcessingJob
  activeJobId : Option String := none
  isRunning : Bool := false
  currentProcess : Bool := false
  retryOnFail : Bool := false
  maxRetriesPerJob : Nat := 2
deriving DecidableEq, Repr

/-- QueueService together with the pending async continuations. -/
structure SysState where
  q : QueueServiceState
  pending : List PendingTask
deriving DecidableEq, Repr

/-- The fields callers pass to addJob (the rest of ProcessingJob is filled
in by addJob itself). -/
structure JobSpec where
  inputFile : String
  outputFile : String
  args : List String
  durationSeconds : Option ℚ := none
deriving DecidableEq, Repr

/-- QueueStartOptions of types/services.ts (parallelism is unused). -/
structure QueueStartOptions where
  retryOnFail : Option Bool := none
  maxRetriesPerJob : Option Nat := none
deriving DecidableEq, Repr

/-- The queue with no jobs, as constructed at module load. -/
def emptySysState : SysState := { q := { jobs := [] }, pending := [] }

/-! ## Map operations on the jobs collection -/

/-- this.jobs.get(id). -/
def findJob (jobs : List ProcessingJob) (id : String) : Option ProcessingJob :=
  jobs.find? (fun j => j.id == id)

/-- this.jobs.set(id, j): a present key keeps its insertion position, an
absent key is appended (JS Map semantics). -/
def mapSet (jobs : List ProcessingJob) (id : String) (j : ProcessingJob) :
    List ProcessingJob :=
  if (findJob jobs id).isSome then jobs.map (fun k => if k.id = id then j else k)
  else jobs ++ [j]

/-- this.jobs.delete(id). -/
def mapDelete (jobs : List ProcessingJob) (id : String) : List ProcessingJob :=
  jobs.filter (fun k => k.id != id)

/-! ## Queue operations

Each operation returns the new state together with the list of effects it
produced, in order. now is the value Date.now() returns during the call. -/

/-- QueueService.addJob: construct the job queued with progress 0 and add it
under a fresh id (generateJobId is modelled by the caller-supplied newId,
assumed fresh), then emit stateChange. -/
def addJob (σ : SysState) (s : JobSpec) (newId : String) : SysState × List QueueEvent :=
  let newJob : ProcessingJob :=
    { id := newId, inputFile := s.inputFile, outputFile := s.outputFile,
      args := s.args, status := .queued, progress := 0,
      durationSeconds := s.durationSeconds }
  ({ σ with q := { σ.q with jobs := mapSet σ.q.jobs newId newJob } },
   [.stateChange])

/-- QueueService.cancelCurrentJob: if there is an active job, kill the stored
process handle if one is stored (there never is one: the class never assigns
currentProcess, so the SIGTERM branch is dead — when it would fire it is
recorded as sigTermSent), then mark the job canceled with an end timestamp
and clear the active slot. It emits no stateChange and does not cancel the
pending close handler of the spawned process. -/
def cancelCurrentJob (σ : SysState) (now : Nat) : SysState × List QueueEvent :=
  match σ.q.activeJobId with
  | none => (σ, [])
  | some id =>
    match findJob σ.q.jobs id with
    | none => (σ, [])
    | some job =>
      let killEvents : List QueueEvent :=
        if σ.q.currentProcess then [.sigTermSent] else []
      let q1 := if σ.q.currentProcess then { σ.q with currentProcess := false } else σ.q
      let job1 := { job with status := JobStatus.canceled, endTime := some now }
      ({ σ with q := { q1 with jobs := mapSet q1.jobs id job1, activeJobId := none } },
       killEvents)

/-- QueueService.removeJob: cancel first when the job is the active running
one, then delete it from the map. -/
def removeJob (σ : SysState) (id : String) (now : Nat) :
    SysState × Bool × List QueueEvent :=
  match findJob σ.q.jobs id with
  | none => (σ, false, [])
  | some job =>
    let r := if job.status = .running ∧ σ.q.activeJobId = some id
      then cancelCurrentJob σ now else (σ, [])
    ({ r.1 with q := { r.1.q with jobs := mapDelete r.1.q.jobs id } },
     true, r.2 ++ [.stateChange])

/-- The synchronous prefix of QueueService.executeJob up to its await: mark
the job running with progress 0 and a fresh startTime, clear its error, set
the active slot, emit stateChange, and spawn the process — its close handler
becomes a pending procExit task. -/
def executeJobEntry (σ : SysState) (job : ProcessingJob) (now : Nat) :
    SysState × List QueueEvent :=
  let job1 := { job with
    status := JobStatus.running, progress := 0,
    startTime := some now, error := none }
  ({ σ with
      q := { σ.q with
        jobs := mapSet σ.q.jobs job.id job1,
        activeJobId := some job.id },
      pending := σ.pending ++ [.procExit job.id] },
   [.stateChange])

/-- QueueService.processNextJob: when armed, run the first queued job in
insertion order, or disarm and idle when none is left. -/
def processNextJob (σ : SysState) (now : Nat) : SysState × List QueueEvent :=
  if σ.q.isRunning then
    match σ.q.jobs.find? (fun j => j.status == JobStatus.queued) with
    | none =>
      ({ σ with q := { σ.q with isRunning := false, activeJobId := none } },
       [.stateChange])
    | some job => executeJobEntry σ job now
  else (σ, [])

/-- QueueService.start: a no-op while already running; otherwise install the
retry policy (defaults: retries off, two per job), arm the queue, emit
stateChange and enter the dispatch loop. -/
def startOp (σ : SysState) (opts : QueueStartOptions) (now : Nat) :
    SysState × List QueueEvent :=
  if σ.q.isRunning then (σ, [])
  else
    let q1 := { σ.q with
      retryOnFail := opts.retryOnFail.getD false,
      maxRetriesPerJob := opts.maxRetriesPerJob.getD 2,
      isRunning := true }
    let r := processNextJob { σ with q := q1 } now
    (r.1, QueueEvent.stateChange :: r.2)

/-- QueueService.stop: a no-op when not running; otherwise disarm, cancel the
current job and emit stateChange. -/
def stopOp (σ : SysState) (now : Nat) : SysState × List QueueEvent :=
  if σ.q.isRunning then
    let r := cancelCurrentJob { σ with q := { σ.q with isRunning := false } } now
    (r.1, r.2 ++ [.stateChange])
  else (σ, [])

/-- QueueService.clearQueue: stop when running, then drop every job. -/
def clearQueue (σ : SysState) (now : Nat) : SysState × List QueueEvent :=
  let r := if σ.q.isRunning then stopOp σ now else (σ, [])
  ({ r.1 with q := { r.1.q with jobs := [] } }, r.2 ++ [.stateChange])

/-- QueueService.retryJob: only a failed job is reset (status queued,
progress 0, error and both timestamps cleared; every other field is left as
it was). The await start() then runs synchronously through the dispatch
entry, so an idle queue immediately launches the next queued job. -/
def retryJob (σ : SysState) (id : String) (now : Nat) :
    SysState × Bool × List QueueEvent :=
  match findJob σ.q.jobs id with
  | none => (σ, false, [])
  | some job =>
    if job.status = .failed then
      let job1 := { job with
        status := JobStatus.queued, progress := 0,
        error := none, startTime := none, endTime := none }
      let σ1 := { σ with q := { σ.q with jobs := mapSet σ.q.jobs id job1 } }
      if σ1.q.isRunning then (σ1, true, [.stateChange])
      else
        let r := startOp σ1 {} now
        (r.1, true, QueueEvent.stateChange :: r.2)
    else (σ, false, [])

/-- QueueService.cancelJob: the running active job goes through
cancelCurrentJob (which emits nothing); a queued job is marked canceled
directly; any other existing status falls through unchanged — and the
method still returns true for it. Only a missing id returns false. -/
def cancelJob (σ : SysState) (id : String) (now : Nat) :
    SysState × Bool × List QueueEvent :=
  match findJob σ.q.jobs id with
  | none => (σ, false, [])
  | some job =>
    if job.status = .running ∧ σ.q.activeJobId = some id then
      let r := cancelCurrentJob σ now
      (r.1, true, r.2)
    else if job.status = .queued then
      let job1 := { job with status := JobStatus.canceled, endTime := some now }
      ({ σ with q := { σ.q with jobs := mapSet σ.q.jobs id job1 } },
       true, [.stateChange])
    else (σ, true, [])

/-- JS truthiness of the optional speed string guard in updateJobProgress. -/
def truthyStr (o : Option String) : Bool :=
  match o with
  | some s => s != ""
  | none => false

/-- JS truthiness of an optional number (zero is falsy). -/
def truthyNum (o : Option ℚ) : Bool :=
  match o with
  | some x => x != 0
  | none => false

/-- QueueService.updateJobProgress: clamp the incoming progress into [0,100]
and store it unconditionally (no comparison with the previous value), update
speed and etaSeconds only when truthy, then emit the progress event and
stateChange. -/
def updateJobProgress (σ : SysState) (id : String) (progress : ℚ)
    (speed : Option String) (etaSeconds : Option ℚ) : SysState × List QueueEvent :=
  match findJob σ.q.jobs id with
  | none => (σ, [])
  | some job =>
    let job1 := { job with progress := jsMax 0 (jsMin 100 progress) }
    let job2 := if truthyStr speed then { job1 with speed := speed } else job1
    let job3 := if truthyNum etaSeconds then { job2 with etaSeconds := etaSeconds } else job2
    ({ σ with q := { σ.q with jobs := mapSet σ.q.jobs id job3 } },
     [.progressEvent id job3.progress job3.speed job3.etaSeconds, .stateChange])

/-- JS result.error || fallback: undefined and the empty string both fall
back. -/
def jsOrDefault (o : Option String) (d : String) : String :=
  match o with
  | some s => if s = "" then d else s
  | none => d

/-- QueueService.shouldRetryJob: count the jobs sharing the failing job's
input and output paths that currently carry status failed, and allow a
retry while that count is below maxRetriesPerJob. -/
def shouldRetryJob (q : QueueServiceState) (job : ProcessingJob) : Bool :=
  decide ((q.jobs.filter (fun j =>
    j.inputFile == job.inputFile && j.outputFile == job.outputFile &&
      j.status == JobStatus.failed)).length < q.maxRetriesPerJob)

/-- The rest of QueueService.executeJob, run when the awaited executeArgs
resolves (the process close event): success and errorOutput are the resolved
result. The TS code mutates the one shared job object in place, so the map
already shows the failed status when shouldRetryJob scans it; the embedding
applies mapSet before the scan to model that aliasing. The handler then
unconditionally clears activeJobId, emits jobComplete and stateChange, and
schedules the dispatch timer when the queue is still armed. The procExit
task is consumed; cancellation never removed it, because the class holds no
process handle to kill. -/
def handleExit (σ : SysState) (id : String) (success : Bool)
    (errorOutput : Option String) (now : Nat) : SysState × List QueueEvent :=
  let pending1 := σ.pending.erase (.procExit id)
  match findJob σ.q.jobs id with
  | none => ({ σ with pending := pending1 }, [])
  | some job =>
    let job1 := { job with endTime := some now }
    let job2 :=
      if success then { job1 with status := JobStatus.completed, progress := 100 }
      else { job1 with
        status := JobStatus.failed,
        error := some (jsOrDefault errorOutput "Unknown error occurred") }
    let jobsMid := mapSet σ.q.jobs id job2
    let job3 :=
      if !success && σ.q.retryOnFail && shouldRetryJob { σ.q with jobs := jobsMid } job2 then
        { job2 with
          status := JobStatus.queued, progress := 0,
          startTime := none, endTime := none, error := none }
      else job2
    let q1 := { σ.q with jobs := mapSet jobsMid id job3, activeJobId := none }
    let pending2 := if q1.isRunning then pending1 ++ [.nextTimer] else pending1
    ({ σ with q := q1, pending := pending2 },
     [.jobComplete id (job3.status == JobStatus.completed) job3.error, .stateChange])

/-- The setTimeout callback scheduled at the end of executeJob: consume the
timer and run processNextJob. -/
def fireNextTimer (σ : SysState) (now : Nat) : SysState × List QueueEvent :=
  processNextJob { σ with pending := σ.pending.erase .nextTimer } now

/-- The onProgress callback executeJob passes to executeArgs, fed one stderr
chunk: it fires only when extractProgressDetails yields a percent, and then
computes an ETA from the elapsed media time, the job's known duration and
the wall clock (the JS division-by-zero-gives-Infinity corner produces the
same ETA 0 as rational division by zero does here). The job's current
durationSeconds and startTime are read through the shared job object. -/
def progressChunk (σ : SysState) (id : String) (chunk : List Char) (now : Nat) :
    SysState × List QueueEvent :=
  match findJob σ.q.jobs id with
  | none => (σ, [])
  | some job =>
    let d := extractProgressDetails chunk job.durationSeconds
    match d.percent with
    | none => (σ, [])
    | some pct =>
      let eta : Option ℚ :=
        match d.timeSeconds, job.durationSeconds with
        | some t, some dur =>
          if t ≠ 0 ∧ dur ≠ 0 then
            let startRef : ℚ :=
              match job.startTime with
              | some st => if st ≠ 0 then (st : ℚ) else (now : ℚ)
              | none => (now : ℚ)
            some (jsMax 0 ((dur - t) /
              (if 0 < t then t / ((now : ℚ) - startRef) * 1000 else 1)))
          else none
        | _, _ => none
      updateJobProgress σ id pct d.speed eta

/-! ## Concrete runs used by the claims -/

/-- A one-input job request. -/
def jobSpecA : JobSpec :=
  { inputFile := "in.mp4", outputFile := "out.mp4",
    args := ["-i", "in.mp4", "out.mp4"] }

/-- A second job request with distinct paths. -/
def jobSpecB : JobSpec :=
  { inputFile := "in2.mp4", outputFile := "out2.mp4",
    args := ["-i", "in2.mp4", "out2.mp4"] }

/-- A third job request with distinct paths. -/
def jobSpecC : JobSpec :=
  { inputFile := "in3.mp4", outputFile := "out3.mp4",
    args := ["-i", "in3.mp4", "out3.mp4"] }

/-- Cancellation run: one job enqueued and started. -/
def cancelRunStart : SysState :=
  (startOp (addJob emptySysState jobSpecA "j1").1 {} 0).1

/-- Cancellation run: cancelJob on the job while it is running (the spawned
process is still alive; its close handler stays pending). -/
def cancelRunCancel : SysState × Bool × List QueueEvent :=
  cancelJob cancelRunStart "j1" 1

/-- Cancellation run, failing exit: the process of the canceled job later
exits nonzero with diagnostic output boom. -/
def cancelRunExitFail : SysState × List QueueEvent :=
  handleExit cancelRunCancel.1 "j1" false (some "boom") 2

/-- Cancellation run, successful exit: the process of the canceled job later
exits with code 0 (it was never killed). -/
def cancelRunExitOk : SysState × List QueueEvent :=
  handleExit cancelRunCancel.1 "j1" true none 2

/-- Retry run: one job started with retryOnFail on and maxRetriesPerJob 2. -/
def retryRunStart : SysState :=
  (startOp (addJob emptySysState jobSpecA "j1").1
    { retryOnFail := some true, maxRetriesPerJob := some 2 } 0).1

/-- One full failure round: the process exits nonzero, the exit handler
requeues the job (its failed count never reaches the bound), and the
dispatch timer relaunches it. -/
def retryFailCycle (σ : SysState) : SysState :=
  (fireNextTimer (handleExit σ "j1" false (some "err") 0).1 0).1

/-- Double-dispatch run: three jobs, start, stop mid-run, start again. -/
def doubleRunStart2 : SysState :=
  (startOp (stopOp (startOp (addJob (addJob (addJob emptySysState
    jobSpecA "j1").1 jobSpecB "j2").1 jobSpecC "j3").1 {} 0).1 1).1 {} 2).1

/-- Double-dispatch run: the first job's still-alive process exits while the
second job is running; the handler clears the active slot and schedules the
dispatch timer. -/
def doubleRunExit1 : SysState :=
  (handleExit doubleRunStart2 "j1" false (some "late") 3).1

/-- Double-dispatch run: the rescheduled dispatch launches the third job
while the second is still running. -/
def doubleRunDispatch3 : SysState :=
  (fireNextTimer doubleRunExit1 4).1

/-- Progress run: a job with a known 120-second duration, running. -/
def progressJobSpec : JobSpec :=
  { inputFile := "in.mp4", outputFile := "out.mp4",
    args := ["-i", "in.mp4", "out.mp4"], durationSeconds := some 120 }

/-- Progress run: started at wall-clock 0. -/
def progressRunStart : SysState :=
  (startOp (addJob emptySysState progressJobSpec "j1").1 {} 0).1

/-- A diagnostic chunk reporting two minutes of media time. -/
def chunkT120 : List Char := "time=00:02:00.00".toList

/-- A diagnostic chunk reporting thirty seconds of media time. -/
def chunkT30 : List Char := "time=00:00:30.00".toList

/-- Progress run: the two-minute chunk arrives (100 percent). -/
def progressRunHigh : SysState × List QueueEvent :=
  progressChunk progressRunStart "j1" chunkT120 5

/-- Progress run: the thirty-second chunk arrives later (25 percent). -/
def progressRunLow : SysState × List QueueEvent :=
  progressChunk progressRunHigh.1 "j1" chunkT30 6

/-- A completed job, as left behind by a successful run. -/
def completedJobRec : ProcessingJob :=
  { id := "jc", inputFile := "a.mp4", outputFile := "b.mp4",
    args := ["-i", "a.mp4", "b.mp4"], status := JobStatus.completed,
    progress := 100, startTime := some 10, endTime := some 20 }

/-- An idle queue holding only that completed job. -/
def completedOnlyState : SysState :=
  { q := { jobs := [completedJobRec] }, pending := [] }

/-- A failed job with every optional field populated, including the stale
speed and ETA of the failed attempt. -/
def failedJobRec : ProcessingJob :=
  { id := "j1", inputFile := "in.mp4", outputFile := "out.mp4",
    args := ["-i", "in.mp4", "out.mp4"], status := JobStatus.failed,
    progress := 37, speed := some "2.1x", etaSeconds := some 42,
    startTime := some 10, endTime := some 20, error := some "boom",
    durationSeconds := some 120 }

/-- An idle queue holding only that failed job. -/
def failedOnlyIdle : SysState :=
  { q := { jobs := [failedJobRec] }, pending := [] }

/-- An armed queue holding that failed job (a different job is mid-run
elsewhere in the dispatch loop). -/
def failedOnlyArmed : SysState :=
  { q := { jobs := [failedJobRec], isRunning := true }, pending := [] }

/-- A chunk holding two timestamp tokens, one and five seconds. -/
def twoTokenChunk : List Char := "time=00:00:01.00 time=00:00:05.00".toList

/-- The reset retryJob applies to a failed job: status queued, progress 0,
error and both timestamps cleared, everything else untouched. -/
def resetJob (job : ProcessingJob) : ProcessingJob :=
  { job with
    status := JobStatus.queued, progress := 0,
    error := none, startTime := none, endTime := none }

/-- The running job inside progressRunStart, spelled out. -/
def progressRunJob : ProcessingJob :=
  { id := "j1", inputFile := "in.mp4", outputFile := "out.mp4",
    args := ["-i", "in.mp4", "out.mp4"], status := JobStatus.running,
    progress := 0, startTime := some 0, durationSeconds := some 120 }

/-! ## Helper lemmas -/

/-- A job found under a key carries that key as its id. -/
theorem findJob_id (jobs : List ProcessingJob) (id : String) (j : ProcessingJob)
    (h : findJob jobs id = some j) : j.id = id := by
  have := List.find?_some h
  simpa using this

/-- Updating a present key leaves it findable with the new value. -/
theorem findJob_mapSet_self (jobs : List ProcessingJob) (id : String)
    (j j' : ProcessingJob) (hfind : findJob jobs id = some j) (hid : j'.id = id) :
    findJob (mapSet jobs id j') id = some j' := by
  unfold mapSet
  rw [hfind]
  simp only [Option.isSome_some, if_true]
  induction jobs with
  | nil => simp [findJob] at hfind
  | cons a l ih =>
    by_cases ha : a.id = id
    · simp [findJob, ha, hid]
    · have ha' : (a.id == id) = false := by simp [ha]
      simp only [findJob, List.find?_cons, ha'] at hfind
      simpa only [findJob, List.map_cons, if_neg ha, List.find?_cons, ha']
        using ih hfind

/-- Updating one key leaves every job under a different id in place. -/
theorem mem_mapSet_of_ne (jobs : List ProcessingJob) (id : String)
    (j' k : ProcessingJob) (hk : k ∈ jobs) (hne : k.id ≠ id) :
    k ∈ mapSet jobs id j' := by
  unfold mapSet
  by_cases h : (findJob jobs id).isSome
  · simp only [h, if_true]
    exact List.mem_map.mpr ⟨k, hk, by simp [hne]⟩
  · simp only [h, if_false]
    exact List.mem_append_left _ hk

/-- cancelCurrentJob never touches the isRunning flag. -/
theorem cancelCurrentJob_isRunning (σ : SysState) (now : Nat) :
    (cancelCurrentJob σ now).1.q.isRunning = σ.q.isRunning := by
  unfold cancelCurrentJob
  cases h1 : σ.q.activeJobId with
  | none => rfl
  | some id =>
    cases h2 : findJob σ.q.jobs id with
    | none => simp [h2]
    | some job => by_cases h3 : σ.q.currentProcess <;> simp [h2, h3]

/-- stop is the identity on a disarmed queue. -/
theorem stopOp_not_running (σ : SysState) (n : Nat) (h : σ.q.isRunning = false) :
    stopOp σ n = (σ, []) := by simp [stopOp, h]

/-- jsMax agrees with the order-theoretic max. -/
theorem jsMax_eq_max (a b : ℚ) : jsMax a b = max a b := by
  simp [jsMax, max_def]

/-- jsMin agrees with the order-theoretic min. -/
theorem jsMin_eq_min (a b : ℚ) : jsMin a b = min a b := by
  simp [jsMin, min_def]

/-- Clamping into [0,100] is monotone. -/
theorem jsClamp_mono (p₁ p₂ : ℚ) (h : p₁ ≤ p₂) :
    jsMax 0 (jsMin 100 p₁) ≤ jsMax 0 (jsMin 100 p₂) := by
  rw [jsMax_eq_max, jsMax_eq_max, jsMin_eq_min, jsMin_eq_min]
  exact max_le_max le_rfl (min_le_min le_rfl h)

/-- stop always leaves the queue disarmed. -/
theorem stopOp_isRunning (σ : SysState) (n : Nat) :
    (stopOp σ n).1.q.isRunning = false := by
  cases h : σ.q.isRunning with
  | false => simp [stopOp, h]
  | true =>
    simp only [stopOp, h, if_true]
    rw [cancelCurrentJob_isRunning]

/-- One updateJobProgress call: the stored and emitted percent is the clamp
of the incoming value, whatever the speed and ETA guards do. -/
theorem updateJobProgress_events (σ : SysState) (id : String) (p : ℚ)
    (s : Option String) (e : Option ℚ) (job : ProcessingJob)
    (hj : findJob σ.q.jobs id = some job) :
    ∃ j', findJob (updateJobProgress σ id p s e).1.q.jobs id = some j' ∧
      j'.progress = jsMax 0 (jsMin 100 p) ∧
      (updateJobProgress σ id p s e).2 =
        [QueueEvent.progressEvent id (jsMax 0 (jsMin 100 p)) j'.speed j'.etaSeconds,
         QueueEvent.stateChange] := by
  have hjid : job.id = id := findJob_id _ _ _ hj
  unfold updateJobProgress
  simp only [hj]
  by_cases h1 : truthyStr s <;> by_cases h2 : truthyNum e <;>
    simp only [h1, h2, if_true, if_false, Bool.false_eq_true, if_neg] <;>
    exact ⟨_, findJob_mapSet_self _ _ _ _ hj (by simp [hjid]), rfl, rfl⟩

/-! ## Claim theorems -/

/-- C1: cancellation of the active running job. The code does set the job
canceled with an end timestamp, clears the active slot and emits nothing —
but it never signals the external process: the class never stores a handle
(currentProcess is false before and after the cancel, no sigTermSent effect
is produced) and the close handler of the spawned process stays pending.
When that process later exits nonzero, the leftover executeJob continuation
overwrites the canceled status with failed and emits a jobComplete
notification carrying the error string for the canceled attempt. -/
theorem cancelActive_unsignaled_then_failure_reported :
    ((findJob cancelRunStart.q.jobs "j1").map (·.status) = some JobStatus.running ∧
      cancelRunStart.q.activeJobId = some "j1" ∧
      cancelRunStart.q.currentProcess = false) ∧
    ((findJob cancelRunCancel.1.q.jobs "j1").map (·.status) = some JobStatus.canceled ∧
      (findJob cancelRunCancel.1.q.jobs "j1").map (·.endTime) = some (some 1) ∧
      cancelRunCancel.1.q.activeJobId = none ∧
      cancelRunCancel.2.2 = [] ∧
      cancelRunCancel.1.q.currentProcess = false ∧
      cancelRunCancel.1.pending = [PendingTask.procExit "j1"]) ∧
    ((findJob cancelRunExitFail.1.q.jobs "j1").map (·.status) = some JobStatus.failed ∧
      cancelRunExitFail.2 =
        [QueueEvent.jobComplete "j1" false (some "boom"), QueueEvent.stateChange]) := by
  decide

/-- C2: with retryOnFail on and maxRetriesPerJob 2, a job whose process
fails on every attempt never settles at failed. Each failure round (exit
handler plus dispatch timer) returns the queue to the exact running state it
started the attempt from, and the exit handler after any number of rounds
still resets the job to queued: the requeue erases the failed status that
the retry count is derived from, so the count stays at one forever. -/
theorem retryBound_never_settles (n : Nat) :
    (findJob (retryFailCycle^[n] retryRunStart).q.jobs "j1").map (·.status) =
      some JobStatus.running ∧
    (findJob (handleExit (retryFailCycle^[n] retryRunStart) "j1" false
        (some "err") 0).1.q.jobs "j1").map (·.status) = some JobStatus.queued := by
  rw [Function.iterate_fixed (by decide : retryFailCycle retryRunStart = retryRunStart)]
  exact ⟨by decide, by decide⟩

/-- C3: canceled is not terminal. A job canceled while running keeps its
pending process-exit continuation; when the never-killed process exits with
code 0 the continuation overwrites the canceled status with completed and
emits a jobComplete for it — with no removeJob or clearQueue involved. -/
theorem canceled_overwritten_by_exit :
    (findJob cancelRunCancel.1.q.jobs "j1").map (·.status) = some JobStatus.canceled ∧
    (findJob cancelRunExitOk.1.q.jobs "j1").map (·.status) = some JobStatus.completed ∧
    cancelRunExitOk.2 = [QueueEvent.jobComplete "j1" true none, QueueEvent.stateChange] ∧
    JobStatus.completed ≠ JobStatus.canceled := by
  decide

/-- C4: a reachable interleaving ends with two jobs in status running. Three
jobs are enqueued and the queue started; stop cancels the first mid-run (its
process survives unkilled); start launches the second; when the first
process finally exits, its handler clears the active slot (orphaning the
second job) and reschedules dispatch, which launches the third while the
second is still running. -/
theorem two_jobs_running_reachable :
    (doubleRunDispatch3.q.jobs.filter (fun j => j.status == JobStatus.running)).length = 2 ∧
    (findJob doubleRunDispatch3.q.jobs "j2").map (·.status) = some JobStatus.running ∧
    (findJob doubleRunDispatch3.q.jobs "j3").map (·.status) = some JobStatus.running ∧
    doubleRunDispatch3.q.activeJobId = some "j3" ∧
    doubleRunDispatch3.pending =
      [PendingTask.procExit "j2", PendingTask.procExit "j3"] := by
  decide

/-- C5: for every chunk in which the timestamp regex matches, the extractor
reports elapsed seconds hours*3600 + minutes*60 + seconds with the
fractional part kept exactly; with a positive expected duration the percent
is the ratio clamped into [0,100]; with no duration, or a non-positive one,
the percent is absent. -/
theorem extractProgress_elapsed_and_percent (chunk : List Char) (g : TimeTokenGroups)
    (hm : scanFirst timeMatchAt chunk = some g) :
    (∀ dOpt : Option ℚ, (extractProgressDetails chunk dOpt).timeSeconds =
      some ((parseInt2 g.h1 g.h2 : ℚ) * 3600 + (parseInt2 g.m1 g.m2 : ℚ) * 60 +
        parseSeconds g.s1 g.s2 g.f1 g.f2)) ∧
    (∀ d : ℚ, 0 < d → (extractProgressDetails chunk (some d)).percent =
      some (jsMax 0 (jsMin 100 (elapsedSeconds g / d * 100)))) ∧
    (extractProgressDetails chunk none).percent = none ∧
    (∀ d : ℚ, d ≤ 0 → (extractProgressDetails chunk (some d)).percent = none) := by
  refine ⟨fun dOpt => ?_, fun d hd => ?_, ?_, fun d hd => ?_⟩
  · simp [extractProgressDetails, hm, elapsedSeconds]
  · simp [extractProgressDetails, hm, hd]
  · simp [extractProgressDetails, hm]
  · simp [extractProgressDetails, hm, not_lt.mpr hd]

/-- C5 witness, scenario A: duration 120, chunks at media times 60, 60 and
120 seconds yield the percent sequence 50, 50, 100. -/
theorem extractProgress_scenarioA :
    (extractProgressDetails ("time=00:00:60.00".toList) (some 120)).percent = some 50 ∧
    (extractProgressDetails ("time=00:01:00.00".toList) (some 120)).percent = some 50 ∧
    (extractProgressDetails ("time=00:02:00.00".toList) (some 120)).percent = some 100 := by
  have hp0 : parseInt2 '0' '0' = 0 := by decide
  have hp1 : parseInt2 '0' '1' = 1 := by decide
  have hp2 : parseInt2 '0' '2' = 2 := by decide
  have hp60 : parseInt2 '6' '0' = 60 := by decide
  refine ⟨?_, ?_, ?_⟩
  · rw [(extractProgress_elapsed_and_percent ("time=00:00:60.00".toList)
      ⟨'0', '0', '0', '0', '6', '0', '0', '0'⟩ (by decide)).2.1 120 (by norm_num)]
    norm_num [elapsedSeconds, parseSeconds, hp0, hp60, jsMax, jsMin]
  · rw [(extractProgress_elapsed_and_percent ("time=00:01:00.00".toList)
      ⟨'0', '0', '0', '1', '0', '0', '0', '0'⟩ (by decide)).2.1 120 (by norm_num)]
    norm_num [elapsedSeconds, parseSeconds, hp0, hp1, jsMax, jsMin]
  · rw [(extractProgress_elapsed_and_percent ("time=00:02:00.00".toList)
      ⟨'0', '0', '0', '2', '0', '0', '0', '0'⟩ (by decide)).2.1 120 (by norm_num)]
    norm_num [elapsedSeconds, parseSeconds, hp0, hp2, jsMax, jsMin]

/-- C6 counterexample: on a chunk holding the timestamps 1s and then 5s, the
extractor reports 1 — the FIRST occurrence — while the last occurrence (the
one the claim calls authoritative) is 5. -/
theorem extract_first_not_last_cex :
    (extractProgressDetails twoTokenChunk none).timeSeconds = some 1 ∧
    (scanLast timeMatchAt twoTokenChunk).map elapsedSeconds = some 5 ∧
    (1 : ℚ) ≠ 5 := by
  have hf : scanFirst timeMatchAt twoTokenChunk =
      some ⟨'0', '0', '0', '0', '0', '1', '0', '0'⟩ := by decide
  have hl : scanLast timeMatchAt twoTokenChunk =
      some ⟨'0', '0', '0', '0', '0', '5', '0', '0'⟩ := by decide
  have hp0 : parseInt2 '0' '0' = 0 := by decide
  have hp1 : parseInt2 '0' '1' = 1 := by decide
  have hp5 : parseInt2 '0' '5' = 5 := by decide
  refine ⟨?_, ?_, by norm_num⟩
  · simp only [extractProgressDetails, hf, Option.map_some']
    norm_num [elapsedSeconds, parseSeconds, hp0, hp1]
  · rw [hl]
    simp only [Option.map_some']
    norm_num [elapsedSeconds, parseSeconds, hp0, hp5]

/-- C6 amended: the extractor's elapsed seconds come from the first
timestamp occurrence in the chunk (String.match with a non-global regex),
not the last. -/
theorem extract_timeSeconds_from_first (chunk : List Char) (g : TimeTokenGroups)
    (hm : scanFirst timeMatchAt chunk = some g) (dOpt : Option ℚ) :
    (extractProgressDetails chunk dOpt).timeSeconds = some (elapsedSeconds g) := by
  simp [extractProgressDetails, hm]

/-- C6 witness: on the two-token chunk the reported time is that of the
first token. -/
theorem extract_timeSeconds_from_first_witness :
    (extractProgressDetails twoTokenChunk (some 10)).timeSeconds =
      some (elapsedSeconds ⟨'0', '0', '0', '0', '0', '1', '0', '0'⟩) :=
  extract_timeSeconds_from_first twoTokenChunk
    ⟨'0', '0', '0', '0', '0', '1', '0', '0'⟩ (by decide) (some 10)

/-- C7 counterexample: during one run attempt of a job with duration 120, a
chunk at media time 120 (percent 100) followed by a chunk at media time 30
(percent 25) produces a strictly decreasing pair of progress events: the
queue stores and emits each incoming percent without comparing it to the
previous one. -/
theorem progress_decreases_cex :
    progressRunHigh.2 =
      [QueueEvent.progressEvent "j1" 100 none none, QueueEvent.stateChange] ∧
    progressRunLow.2 =
      [QueueEvent.progressEvent "j1" 25 none none, QueueEvent.stateChange] ∧
    ¬((100 : ℚ) ≤ 25) := by
  have hp0 : parseInt2 '0' '0' = 0 := by decide
  have hp2 : parseInt2 '0' '2' = 2 := by decide
  have hp30 : parseInt2 '3' '0' = 30 := by decide
  have hexH : extractProgressDetails chunkT120 (some 120) =
      { percent := some 100, timeSeconds := some 120, speed := none } := by
    have hsc : scanFirst timeMatchAt chunkT120 =
        some ⟨'0', '0', '0', '2', '0', '0', '0', '0'⟩ := by decide
    have hsp : scanFirst speedMatchAt chunkT120 = none := by decide
    norm_num [extractProgressDetails, hsc, hsp, elapsedSeconds, parseSeconds,
      hp0, hp2, jsMax, jsMin]
  have hexL : extractProgressDetails chunkT30 (some 120) =
      { percent := some 25, timeSeconds := some 30, speed := none } := by
    have hsc : scanFirst timeMatchAt chunkT30 =
        some ⟨'0', '0', '0', '0', '3', '0', '0', '0'⟩ := by decide
    have hsp : scanFirst speedMatchAt chunkT30 = none := by decide
    norm_num [extractProgressDetails, hsc, hsp, elapsedSeconds, parseSeconds,
      hp0, hp30, jsMax, jsMin]
  have hstart : progressRunStart =
      { q := { jobs := [progressRunJob], activeJobId := some "j1", isRunning := true },
        pending := [PendingTask.procExit "j1"] } := by decide
  have hhigh : progressRunHigh =
      ({ q := { jobs := [{ progressRunJob with progress := 100 }],
                activeJobId := some "j1", isRunning := true },
         pending := [PendingTask.procExit "j1"] },
       [QueueEvent.progressEvent "j1" 100 none none, QueueEvent.stateChange]) := by
    unfold progressRunHigh progressChunk
    rw [hstart]
    norm_num [findJob, progressRunJob, hexH, updateJobProgress, truthyStr, truthyNum,
      mapSet, jsMax, jsMin]
  have hlow : progressRunLow.2 =
      [QueueEvent.progressEvent "j1" 25 none none, QueueEvent.stateChange] := by
    unfold progressRunLow progressChunk
    rw [hhigh]
    norm_num [findJob, progressRunJob, hexL, updateJobProgress, truthyStr, truthyNum,
      mapSet, jsMax, jsMin]
  exact ⟨by rw [hhigh], hlow, by norm_num⟩

/-- C7 amended: each progress event reports the incoming percent clamped
into [0,100]; successive events are non-decreasing exactly when the incoming
percents are — monotonicity is inherited from the input chunks, not
enforced by the queue. -/
theorem progress_events_clamped_monotone (σ : SysState) (id : String)
    (job : ProcessingJob) (p₁ p₂ : ℚ) (s₁ s₂ : Option String) (e₁ e₂ : Option ℚ)
    (hj : findJob σ.q.jobs id = some job) (hmono : p₁ ≤ p₂) :
    ∃ sp₁ et₁ sp₂ et₂,
      (updateJobProgress σ id p₁ s₁ e₁).2 =
        [QueueEvent.progressEvent id (jsMax 0 (jsMin 100 p₁)) sp₁ et₁,
         QueueEvent.stateChange] ∧
      (updateJobProgress (updateJobProgress σ id p₁ s₁ e₁).1 id p₂ s₂ e₂).2 =
        [QueueEvent.progressEvent id (jsMax 0 (jsMin 100 p₂)) sp₂ et₂,
         QueueEvent.stateChange] ∧
      jsMax 0 (jsMin 100 p₁) ≤ jsMax 0 (jsMin 100 p₂) := by
  obtain ⟨j₁, hf₁, _, he₁⟩ := updateJobProgress_events σ id p₁ s₁ e₁ job hj
  obtain ⟨j₂, hf₂, _, he₂⟩ := updateJobProgress_events _ id p₂ s₂ e₂ j₁ hf₁
  exact ⟨_, _, _, _, he₁, he₂, jsClamp_mono _ _ hmono⟩

/-- C7 witness: two in-order updates at 25 then 100 percent on the running
progress job emit clamped, non-decreasing percents. -/
theorem progress_events_clamped_monotone_witness :
    ∃ sp₁ et₁ sp₂ et₂,
      (updateJobProgress progressRunStart "j1" 25 none none).2 =
        [QueueEvent.progressEvent "j1" (jsMax 0 (jsMin 100 25)) sp₁ et₁,
         QueueEvent.stateChange] ∧
      (updateJobProgress (updateJobProgress progressRunStart "j1" 25 none none).1
          "j1" 100 none none).2 =
        [QueueEvent.progressEvent "j1" (jsMax 0 (jsMin 100 100)) sp₂ et₂,
         QueueEvent.stateChange] ∧
      jsMax 0 (jsMin 100 (25 : ℚ)) ≤ jsMax 0 (jsMin 100 (100 : ℚ)) :=
  progress_events_clamped_monotone progressRunStart "j1" progressRunJob
    25 100 none none none none (by decide) (by norm_num)

/-- C8 counterexample: on the reachable double-dispatch state with two
running jobs, stop — once or twice — cancels only the job in the active
slot; the stale running job survives with status running, so the claimed
post-state (queue idle with no job running) does not hold, although the
first and second calls do agree. -/
theorem stop_twice_stale_running_cex :
    (stopOp (stopOp doubleRunDispatch3 9).1 10).1.q.isRunning = false ∧
    (findJob (stopOp (stopOp doubleRunDispatch3 9).1 10).1.q.jobs "j3").map (·.status) =
      some JobStatus.canceled ∧
    (findJob (stopOp (stopOp doubleRunDispatch3 9).1 10).1.q.jobs "j2").map (·.status) =
      some JobStatus.running := by
  decide

/-- C8 amended: stop is exactly idempotent — the second call returns the
identical state and emits nothing — and it always disarms the queue; the job
referenced by activeJobId (when it exists) is marked canceled, never failed.
Only a running job not referenced by activeJobId (a state the double-
dispatch defect can produce) escapes cancellation. -/
theorem stop_idempotent_state :
    (∀ (σ : SysState) (n₁ n₂ : Nat),
      stopOp (stopOp σ n₁).1 n₂ = ((stopOp σ n₁).1, [])) ∧
    (∀ (σ : SysState) (n : Nat), (stopOp σ n).1.q.isRunning = false) ∧
    (∀ (σ : SysState) (n : Nat) (id : String) (job : ProcessingJob),
      σ.q.isRunning = true → σ.q.activeJobId = some id →
      findJob σ.q.jobs id = some job →
      (stopOp σ n).1.q.activeJobId = none ∧
      (findJob (stopOp σ n).1.q.jobs id).map (·.status) = some JobStatus.canceled) := by
  refine ⟨fun σ n₁ n₂ => stopOp_not_running _ _ (stopOp_isRunning σ n₁),
    fun σ n => stopOp_isRunning σ n, fun σ n id job hrun hact hj => ?_⟩
  have hjid : job.id = id := findJob_id _ _ _ hj
  unfold stopOp cancelCurrentJob
  simp only [hrun, if_true, hact]
  by_cases h3 : σ.q.currentProcess <;>
    simp only [h3, hj, if_true, if_false, Bool.false_eq_true, if_neg] <;>
    exact ⟨by simp, by rw [findJob_mapSet_self _ _ job _ hj (by simpa using hjid)]; simp⟩

/-- C9 counterexample: cancelJob on an existing completed job leaves the
state unchanged but returns true, not the claimed false. -/
theorem cancelJob_completed_true_cex :
    (findJob completedOnlyState.q.jobs "jc").map (·.status) = some JobStatus.completed ∧
    cancelJob completedOnlyState "jc" 7 = (completedOnlyState, true, []) ∧
    (true : Bool) ≠ false := by
  decide

/-- C9 amended: cancelJob on an existing job whose status is neither running
nor queued leaves the job and the whole queue state unchanged and emits
nothing, but reports success by returning true; only a non-existent id
returns false. -/
theorem cancelJob_terminal_noop (σ : SysState) (id : String) (job : ProcessingJob)
    (now : Nat) (hj : findJob σ.q.jobs id = some job)
    (h1 : job.status ≠ JobStatus.running) (h2 : job.status ≠ JobStatus.queued) :
    cancelJob σ id now = (σ, true, []) ∧
    (∀ (σ' : SysState) (id' : String) (m : Nat), findJob σ'.q.jobs id' = none →
      cancelJob σ' id' m = (σ', false, [])) := by
  constructor
  · simp [cancelJob, hj, h1, h2]
  · intro σ' id' m hn
    simp [cancelJob, hn]

/-- C9 witness: the completed-job queue, concretely. -/
theorem cancelJob_terminal_noop_witness :
    cancelJob completedOnlyState "jc" 7 = (completedOnlyState, true, []) :=
  (cancelJob_terminal_noop completedOnlyState "jc" completedJobRec 7
    (by decide) (by decide) (by decide)).1

/-- C10 counterexample: on an idle queue, a successful retryJob call does
not stop at the reset — the await start() it performs dispatches
immediately, so the retried job comes back with status running and a fresh
startTime rather than the claimed queued status and cleared startTime. -/
theorem retryJob_idle_dispatch_cex :
    (retryJob failedOnlyIdle "j1" 99).2.1 = true ∧
    (findJob (retryJob failedOnlyIdle "j1" 99).1.q.jobs "j1").map (·.status) =
      some JobStatus.running ∧
    (findJob (retryJob failedOnlyIdle "j1" 99).1.q.jobs "j1").map (·.startTime) =
      some (some 99) ∧
    JobStatus.running ≠ JobStatus.queued ∧
    some (99 : Nat) ≠ none := by
  decide

/-- C10 amended: on an armed queue (where retryJob performs only the reset),
a successful retryJob mutates exactly status (to queued), progress (to 0),
error, startTime and endTime (all cleared) of the failed job; its id, paths,
args, duration and the stale speed and etaSeconds of the failed attempt
persist, every other job is left in place, and the only effect is one
stateChange. On an idle queue the same reset happens but the call then also
arms the queue and dispatches. -/
theorem retryJob_reset_frame (σ : SysState) (id : String) (job : ProcessingJob)
    (now : Nat) (hrun : σ.q.isRunning = true) (hj : findJob σ.q.jobs id = some job)
    (hst : job.status = JobStatus.failed) :
    retryJob σ id now =
      ({ σ with q := { σ.q with jobs := mapSet σ.q.jobs id (resetJob job) } },
       true, [QueueEvent.stateChange]) ∧
    (∀ k ∈ σ.q.jobs, k.id ≠ id → k ∈ (retryJob σ id now).1.q.jobs) ∧
    findJob (retryJob σ id now).1.q.jobs id = some (resetJob job) ∧
    ((resetJob job).status = JobStatus.queued ∧ (resetJob job).progress = 0 ∧
     (resetJob job).error = none ∧ (resetJob job).startTime = none ∧
     (resetJob job).endTime = none) ∧
    ((resetJob job).speed = job.speed ∧ (resetJob job).etaSeconds = job.etaSeconds ∧
     (resetJob job).args = job.args ∧
     (resetJob job).durationSeconds = job.durationSeconds ∧
     (resetJob job).inputFile = job.inputFile ∧
     (resetJob job).outputFile = job.outputFile ∧ (resetJob job).id = job.id) := by
  have hjid : job.id = id := findJob_id _ _ _ hj
  have hmain : retryJob σ id now =
      ({ σ with q := { σ.q with jobs := mapSet σ.q.jobs id (resetJob job) } },
       true, [QueueEvent.stateChange]) := by
    simp [retryJob, hj, hst, hrun, resetJob]
  have hfind : findJob (retryJob σ id now).1.q.jobs id = some (resetJob job) := by
    rw [hmain]
    exact findJob_mapSet_self _ _ job _ hj (by simpa [resetJob] using hjid)
  refine ⟨hmain, fun k hk hne => ?_, hfind, ?_, ?_⟩
  · rw [hmain]
    exact mem_mapSet_of_ne _ _ _ _ hk hne
  · exact ⟨rfl, rfl, rfl, rfl, rfl⟩
  · exact ⟨rfl, rfl, rfl, rfl, rfl, rfl, rfl⟩

/-- C10 witness: the armed queue holding the fully populated failed job. -/
theorem retryJob_reset_frame_witness :
    findJob (retryJob failedOnlyArmed "j1" 99).1.q.jobs "j1" =
      some (resetJob failedJobRec) :=
  (retryJob_reset_frame failedOnlyArmed "j1" failedJobRec 99 rfl (by decide)
    rfl).2.2.1

end FfmpegFrontend
